import Mathlib

/-
Verification of the dry-counties-map pipeline (src/dry_counties_map.py).

The development shallowly embeds the pure data-processing core of the script:
the state FIPS tables, the hardcoded status table built by `_build_status_map`
(batch insertion into a dict with last-write-wins semantics), the
territory filter and join performed by `build_county_dataset`, and the
spot-check verifier `verify_data`.  Python dicts are modelled as association
lists where insertion prepends and lookup takes the first (i.e. most recent)
matching entry, which reproduces `dict.__setitem__` / `dict.get` semantics.
The shapely geometry simplification is an external library call; it is
modelled as an abstract function parameter of `build_county_dataset`.
-/

namespace DryCounties

/-- Status code `STATUS_DRY` from the source. -/
def STATUS_DRY : String := "Dry"

/-- Status code `STATUS_MOIST` from the source. -/
def STATUS_MOIST : String := "Moist"

/-- Status code `STATUS_WET` from the source. -/
def STATUS_WET : String := "Wet"

/-- `STATE_FIPS_TO_NAME` from the source: 2-digit state FIPS code to full
state name, in the source's literal order.  Note that it contains the entry
("72", "Puerto Rico"). -/
def STATE_FIPS_TO_NAME : List (String × String) := [
  ("01", "Alabama"), ("02", "Alaska"), ("04", "Arizona"), ("05", "Arkansas"),
  ("06", "California"), ("08", "Colorado"), ("09", "Connecticut"),
  ("10", "Delaware"), ("11", "District of Columbia"), ("12", "Florida"),
  ("13", "Georgia"), ("15", "Hawaii"), ("16", "Idaho"), ("17", "Illinois"),
  ("18", "Indiana"), ("19", "Iowa"), ("20", "Kansas"), ("21", "Kentucky"),
  ("22", "Louisiana"), ("23", "Maine"), ("24", "Maryland"),
  ("25", "Massachusetts"), ("26", "Michigan"), ("27", "Minnesota"),
  ("28", "Mississippi"), ("29", "Missouri"), ("30", "Montana"),
  ("31", "Nebraska"), ("32", "Nevada"), ("33", "New Hampshire"),
  ("34", "New Jersey"), ("35", "New Mexico"), ("36", "New York"),
  ("37", "North Carolina"), ("38", "North Dakota"), ("39", "Ohio"),
  ("40", "Oklahoma"), ("41", "Oregon"), ("42", "Pennsylvania"),
  ("44", "Rhode Island"), ("45", "South Carolina"), ("46", "South Dakota"),
  ("47", "Tennessee"), ("48", "Texas"), ("49", "Utah"), ("50", "Vermont"),
  ("51", "Virginia"), ("53", "Washington"), ("54", "West Virginia"),
  ("55", "Wisconsin"), ("56", "Wyoming"), ("72", "Puerto Rico")]

/-- `STATE_NAME_TO_FIPS = {v: k for k, v in STATE_FIPS_TO_NAME.items()}`. -/
def STATE_NAME_TO_FIPS : List (String × String) :=
  STATE_FIPS_TO_NAME.map (fun p => (p.2, p.1))

/-- Association-list lookup modelling Python `dict.get(k)` on a
string-to-string dict. -/
def lookupAssoc (m : List (String × String)) (k : String) : Option String :=
  Option.map Prod.snd (m.find? (fun p => decide (p.1 = k)))

/-- ASCII lowercasing of one character, as Python `str.lower` acts on the
ASCII county and state names of this program. -/
def lowerChar (c : Char) : Char :=
  if 65 ≤ c.toNat ∧ c.toNat ≤ 90 then Char.ofNat (c.toNat + 32) else c

/-- Python `s.lower()` on the ASCII strings of this program, defined
structurally so that concrete instances compute. -/
def lowerStr (s : String) : String := ⟨s.data.map lowerChar⟩

/-- Keys of the status dict: (state FIPS, lowercased county name). -/
abbrev StatusKey := String × String

/-- The status dict, as an association list; a more recent write is nearer
the head. -/
abbrev StatusMap := List (StatusKey × String)

/-- Python `status[k] = v`: under first-match lookup, prepending realises
overwrite semantics. -/
def dictInsert (m : StatusMap) (k : StatusKey) (v : String) : StatusMap :=
  (k, v) :: m

/-- Python `status.get(k)` (no default). -/
def dictFind (m : StatusMap) (k : StatusKey) : Option String :=
  Option.map Prod.snd (m.find? (fun p => decide (p.1 = k)))

/-- Python `status.get(k, d)`. -/
def dictGet (m : StatusMap) (k : StatusKey) (d : String) : String :=
  (dictFind m k).getD d

/-- One call to the inner helper `add(state_name, county_list, stat)` of
`_build_status_map`. -/
structure Batch where
  state : String
  counties : List String
  stat : String
deriving DecidableEq

/-- The body of `add`: resolve the state name to a FIPS code; on failure
return the map unchanged, otherwise write every county of the batch. -/
def addBatch (status : StatusMap) (b : Batch) : StatusMap :=
  match lookupAssoc STATE_NAME_TO_FIPS b.state with
  | none => status
  | some sfips =>
      b.counties.foldl (fun s c => dictInsert s (sfips, lowerStr c) b.stat) status

/-- Fold a list of `add` calls over an initially empty dict, as
`_build_status_map` does. -/
def buildFrom (bs : List Batch) : StatusMap :=
  bs.foldl addBatch []

/-- The eleven `add(...)` calls of `_build_status_map`, in source order. -/
def batches : List Batch := [
  ⟨"Arkansas", [
    "Ashley", "Bradley", "Clay", "Cleburne", "Craighead", "Crawford",
    "Faulkner", "Fulton", "Grant", "Hempstead", "Howard", "Independence",
    "Izard", "Johnson", "Lafayette", "Lawrence", "Lincoln", "Logan",
    "Lonoke", "Montgomery", "Nevada", "Newton", "Perry", "Pike", "Pope",
    "Scott", "Searcy", "Sebastian", "Stone", "White", "Yell"], STATUS_DRY⟩,
  ⟨"Texas", ["Borden", "Kent", "Roberts"], STATUS_DRY⟩,
  ⟨"Mississippi", ["Benton"], STATUS_DRY⟩,
  ⟨"Florida", ["Liberty"], STATUS_DRY⟩,
  ⟨"South Dakota", ["Oglala Lakota", "Shannon"], STATUS_DRY⟩,
  ⟨"Alabama", [
    "Blount", "Cherokee", "Chilton", "Clarke", "Clay", "Coffee",
    "Cullman", "DeKalb", "Fayette", "Franklin", "Geneva", "Jackson",
    "Lamar", "Lauderdale", "Lawrence", "Marion", "Marshall", "Monroe",
    "Morgan", "Pickens", "Randolph", "Washington", "Winston"], STATUS_MOIST⟩,
  ⟨"Kentucky", [
    "Adair", "Allen", "Ballard", "Bath", "Breathitt", "Butler",
    "Carlisle", "Casey", "Clinton", "Crittenden", "Cumberland",
    "Elliott", "Estill", "Fleming", "Hancock", "Hart", "Hickman",
    "Jackson", "Knott", "Knox", "Larue", "Lawrence", "Lee", "Leslie",
    "Lincoln", "McCreary", "McLean", "Martin", "Menifee", "Metcalfe",
    "Monroe", "Morgan", "Ohio", "Owsley", "Powell", "Robertson",
    "Rockcastle", "Russell", "Webster"], STATUS_MOIST⟩,
  ⟨"Mississippi", [
    "Alcorn", "Amite", "Calhoun", "Chickasaw", "Choctaw", "Clarke",
    "Covington", "Franklin", "George", "Greene", "Itawamba", "Jasper",
    "Jones", "Kemper", "Lamar", "Lawrence", "Leake", "Lincoln",
    "Monroe", "Neshoba", "Newton", "Pearl River", "Pontotoc",
    "Prentiss", "Scott", "Simpson", "Smith", "Tate", "Tippah",
    "Tishomingo", "Union", "Wayne", "Webster"], STATUS_MOIST⟩,
  ⟨"Tennessee", [
    "Anderson", "Bedford", "Bledsoe", "Blount", "Bradley", "Campbell",
    "Cannon", "Carroll", "Carter", "Cheatham", "Chester", "Claiborne",
    "Clay", "Cocke", "Coffee", "Crockett", "Cumberland", "Decatur",
    "DeKalb", "Dickson", "Dyer", "Fayette", "Fentress", "Franklin",
    "Gibson", "Giles", "Grainger", "Greene", "Grundy", "Hamblen",
    "Hancock", "Hardeman", "Hardin", "Hawkins", "Haywood", "Henderson",
    "Henry", "Hickman", "Houston", "Humphreys", "Jackson", "Jefferson",
    "Johnson", "Lake", "Lauderdale", "Lawrence", "Lewis", "Lincoln",
    "Loudon", "Macon", "Madison", "Marion", "Marshall", "Maury",
    "McMinn", "McNairy", "Meigs", "Monroe", "Montgomery", "Moore",
    "Morgan", "Obion", "Overton", "Perry", "Pickett", "Polk", "Putnam",
    "Rhea", "Roane", "Robertson", "Rutherford", "Scott", "Sequatchie",
    "Sevier", "Smith", "Stewart", "Sullivan", "Sumner", "Tipton",
    "Trousdale", "Unicoi", "Union", "Van Buren", "Warren",
    "Washington", "Wayne", "Weakley", "White", "Williamson", "Wilson"], STATUS_MOIST⟩,
  ⟨"Florida", ["Lafayette"], STATUS_MOIST⟩,
  ⟨"Georgia", [
    "Bleckley", "Butts", "Coweta", "Decatur", "Dodge", "Effingham",
    "Hart"], STATUS_MOIST⟩]

/-- `_build_status_map()` from the source: the concrete status table. -/
def build_status_map : StatusMap := buildFrom batches

/-- `COUNTY_STATUS_MAP = _build_status_map()`. -/
def COUNTY_STATUS_MAP : StatusMap := build_status_map

/-- The inner `get_status(row)` of `build_county_dataset`:
`COUNTY_STATUS_MAP.get((row.STATEFP, row.NAME.lower()), STATUS_WET)`. -/
def get_status (statefp name : String) : String :=
  dictGet COUNTY_STATUS_MAP (statefp, lowerStr name) STATUS_WET

/-- A row of the input GeoDataFrame: one county-equivalent region of the
shapefile, with the fields the pipeline reads.  Geometry is kept abstract
as its serialized form. -/
structure Region where
  STATEFP : String
  NAME : String
  GEOID : String
  geometry : String
deriving DecidableEq

/-- `valid_states = set(STATE_FIPS_TO_NAME.keys())`. -/
def validStates : List String := STATE_FIPS_TO_NAME.map Prod.fst

/-- The filter `gdf[gdf["STATEFP"].isin(valid_states)]` of
`build_county_dataset`. -/
def filterRegions (gdf : List Region) : List Region :=
  gdf.filter (fun r => decide (r.STATEFP ∈ validStates))

/-- A row of the flat output DataFrame: fips, county, state, status. -/
structure Row where
  fips : String
  county : String
  state : String
  status : String
deriving DecidableEq

/-- A GeoJSON feature as emitted by `build_county_dataset`: id = GEOID,
properties name and state, and the simplified geometry. -/
structure Feature where
  id : String
  name : String
  state : String
  geometry : String
deriving DecidableEq

/-- `gdf["state_name"] = gdf["STATEFP"].map(STATE_FIPS_TO_NAME)`; pandas
yields NaN on a missing key, modelled by the sentinel "NaN" (never produced
for filtered rows). -/
def stateName (statefp : String) : String :=
  (lookupAssoc STATE_FIPS_TO_NAME statefp).getD "NaN"

/-- `build_county_dataset(gdf)`: filter to `valid_states`, join each region
with the status table, and emit the flat table together with one GeoJSON
feature per region whose geometry is simplified by the external shapely
call, abstracted as `simplifyFn`. -/
def build_county_dataset (simplifyFn : String → String) (gdf : List Region) :
    List Row × List Feature :=
  let g := filterRegions gdf
  let df := g.map (fun r =>
    { fips := r.GEOID, county := r.NAME, state := stateName r.STATEFP,
      status := get_status r.STATEFP r.NAME })
  let features := g.map (fun r =>
    { id := r.GEOID, name := r.NAME, state := stateName r.STATEFP,
      geometry := simplifyFn r.geometry })
  (df, features)

/-- One spot check of `verify_data`: county, state, expected status, note. -/
structure Check where
  county : String
  state : String
  expected : String
  note : String
deriving DecidableEq

/-- The fixed check list of `verify_data`, in source order. -/
def checks : List Check := [
  ⟨"Hot Spring", "Arkansas", STATUS_WET, "Voted wet Nov 2022"⟩,
  ⟨"Borden", "Texas", STATUS_DRY, "One of only 3 dry TX counties"⟩,
  ⟨"Kent", "Texas", STATUS_DRY, "One of only 3 dry TX counties"⟩,
  ⟨"Roberts", "Texas", STATUS_DRY, "One of only 3 dry TX counties"⟩,
  ⟨"Benton", "Mississippi", STATUS_DRY, "Only fully dry MS county"⟩,
  ⟨"Liberty", "Florida", STATUS_DRY, "Only fully dry FL county"⟩,
  ⟨"Cullman", "Alabama", STATUS_MOIST, "Moist - has wet cities"⟩,
  ⟨"Throckmorton", "Texas", STATUS_WET, "Voted wet Nov 2024"⟩,
  ⟨"Davidson", "Tennessee", STATUS_WET, "Nashville - fully wet"⟩,
  ⟨"Shelby", "Tennessee", STATUS_WET, "Memphis - fully wet"⟩,
  ⟨"Moore", "Tennessee", STATUS_MOIST, "Jack Daniels county - moist"⟩]

/-- `df[(df["county"] == county) & (df["state"] == state)]` followed by
`.iloc[0]`: the first row matching county and state exactly, if any. -/
def findRow (df : List Row) (county state : String) : Option Row :=
  df.find? (fun r => decide (r.county = county) && decide (r.state = state))

/-- One iteration of the loop of `verify_data`, acting on the `all_pass`
accumulator: a missing row or a status mismatch forces False, a pass leaves
the accumulator unchanged. -/
def verifyStep (df : List Row) (all_pass : Bool) (c : Check) : Bool :=
  match findRow df c.county c.state with
  | none => false
  | some r => if r.status = c.expected then all_pass else false

/-- `verify_data(df)`: fold the check loop over the fixed check list,
starting from `all_pass = True`, and return the aggregate boolean. -/
def verify_data (df : List Row) : Bool :=
  checks.foldl (verifyStep df) true

/-- Whether one check finds a matching row whose status equals the expected
status. -/
def checkPass (df : List Row) (c : Check) : Bool :=
  match findRow df c.county c.state with
  | none => false
  | some r => decide (r.status = c.expected)

/-- The per-check report of `verify_data`: MISS when no row matches, else
PASS or FAIL by equality of the row status with the expected status. -/
def checkOutcome (df : List Row) (c : Check) : String :=
  match findRow df c.county c.state with
  | none => "MISS"
  | some r => if r.status = c.expected then "PASS" else "FAIL"

/-- Whether a batch writes a given key of the status dict: its state name
resolves to the key's FIPS code and some county of the batch lowercases to
the key's county name. -/
def writesKey (b : Batch) (k : StatusKey) : Bool :=
  match lookupAssoc STATE_NAME_TO_FIPS b.state with
  | none => false
  | some sfips => decide (k.1 = sfips) && b.counties.any (fun c => decide (lowerStr c = k.2))

/-- Modelled from the spec: the FIPS codes of the 50 states plus the
District of Columbia, the region set the spec says the joiner keeps. -/
def spec_fifty_states_dc : List String := [
  "01", "02", "04", "05", "06", "08", "09", "10", "11", "12", "13", "15",
  "16", "17", "18", "19", "20", "21", "22", "23", "24", "25", "26", "27",
  "28", "29", "30", "31", "32", "33", "34", "35", "36", "37", "38", "39",
  "40", "41", "42", "44", "45", "46", "47", "48", "49", "50", "51", "53",
  "54", "55", "56"]

/-- Modelled from the spec: the state-level FIPS codes of the US
territories (American Samoa, Guam, Northern Mariana Islands, Puerto Rico,
US Virgin Islands). -/
def territory_fips : List String := ["60", "66", "69", "72", "78"]

/-- A Puerto Rico region as it appears in the Census shapefile. -/
def prRegion : Region := ⟨"72", "San Juan", "72127", "geomPR"⟩

/-- A Guam region as it appears in the Census shapefile. -/
def guamRegion : Region := ⟨"66", "Guam", "66010", "geomGU"⟩

/-- A six-region input collection holding the shapefile fields of the six
counties named by the spot-check scenarios of the spec. -/
def gdfSpot : List Region := [
  ⟨"05", "Hot Spring", "05059", "g1"⟩, ⟨"48", "Borden", "48033", "g2"⟩,
  ⟨"28", "Benton", "28009", "g3"⟩, ⟨"01", "Cullman", "01043", "g4"⟩,
  ⟨"47", "Davidson", "47037", "g5"⟩, ⟨"47", "Moore", "47117", "g6"⟩]

/-- A joined table holding one row per entry of the fixed check list of
`verify_data`, each with the expected status. -/
def df11 : List Row := [
  ⟨"05059", "Hot Spring", "Arkansas", STATUS_WET⟩,
  ⟨"48033", "Borden", "Texas", STATUS_DRY⟩,
  ⟨"48263", "Kent", "Texas", STATUS_DRY⟩,
  ⟨"48393", "Roberts", "Texas", STATUS_DRY⟩,
  ⟨"28009", "Benton", "Mississippi", STATUS_DRY⟩,
  ⟨"12077", "Liberty", "Florida", STATUS_DRY⟩,
  ⟨"01043", "Cullman", "Alabama", STATUS_MOIST⟩,
  ⟨"48447", "Throckmorton", "Texas", STATUS_WET⟩,
  ⟨"47037", "Davidson", "Tennessee", STATUS_WET⟩,
  ⟨"47157", "Shelby", "Tennessee", STATUS_WET⟩,
  ⟨"47117", "Moore", "Tennessee", STATUS_MOIST⟩]

/-- The Borden, Texas entry of the fixed check list. -/
def bordenCheck : Check := ⟨"Borden", "Texas", STATUS_DRY, "One of only 3 dry TX counties"⟩

/-- Helper: `find?` after prepending an entry with a different key is
unchanged. -/
lemma dictFind_dictInsert_ne (m : StatusMap) (k k' : StatusKey) (v : String)
    (h : k' ≠ k) : dictFind (dictInsert m k' v) k = dictFind m k := by
  unfold dictFind dictInsert
  rw [List.find?_cons_of_neg]
  simp [h]

/-- Helper: `find?` after prepending an entry with the looked-up key returns
that entry. -/
lemma dictFind_dictInsert_eq (m : StatusMap) (k : StatusKey) (v : String) :
    dictFind (dictInsert m k v) k = some v := by
  unfold dictFind dictInsert
  rw [List.find?_cons_of_pos] <;> simp

/-- Helper: inserting a batch of counties none of which produces the
looked-up key leaves that lookup unchanged. -/
lemma foldl_insert_find_ne (sfips stat : String) (k : StatusKey) :
    ∀ (cs : List String) (st : StatusMap),
      (∀ c ∈ cs, ((sfips, lowerStr c) : StatusKey) ≠ k) →
      dictFind (cs.foldl (fun s c => dictInsert s (sfips, lowerStr c) stat) st) k
        = dictFind st k := by
  intro cs
  induction cs with
  | nil => intro st _; rfl
  | cons c cs ih =>
      intro st hne
      rw [List.foldl_cons, ih _ (fun c' hc' => hne c' (List.mem_cons_of_mem _ hc')),
        dictFind_dictInsert_ne _ _ _ _ (hne c (List.mem_cons_self _ _))]

/-- Helper: inserting a batch of counties one of which produces the
looked-up key makes that lookup return the batch status. -/
lemma foldl_insert_find_hit (sfips stat : String) (k : StatusKey) :
    ∀ (cs : List String) (st : StatusMap), k.1 = sfips →
      (cs.any fun c => decide (lowerStr c = k.2)) = true →
      dictFind (cs.foldl (fun s c => dictInsert s (sfips, lowerStr c) stat) st) k
        = some stat := by
  intro cs
  induction cs with
  | nil => intro st _ hany; simp at hany
  | cons c cs ih =>
      intro st hk1 hany
      rw [List.foldl_cons]
      by_cases hcs : (cs.any fun c => decide (lowerStr c = k.2)) = true
      · exact ih _ hk1 hcs
      · have hc : lowerStr c = k.2 := by
          simp only [List.any_cons, Bool.or_eq_true, decide_eq_true_eq] at hany
          rcases hany with h | h
          · exact h
          · exact absurd h hcs
        have hrest : ∀ c' ∈ cs, ((sfips, lowerStr c') : StatusKey) ≠ k := by
          intro c' hc' hcontra
          apply hcs
          simp only [List.any_eq_true, decide_eq_true_eq]
          exact ⟨c', hc', by rw [← hcontra]⟩
        rw [foldl_insert_find_ne _ _ _ _ _ hrest]
        have hkey : ((sfips, lowerStr c) : StatusKey) = k := by
          rw [hc, ← hk1]
        rw [hkey, dictFind_dictInsert_eq]

/-- Helper: a batch that does not write the looked-up key leaves that lookup
unchanged. -/
lemma addBatch_find_not_writes (b : Batch) (k : StatusKey)
    (h : writesKey b k = false) (st : StatusMap) :
    dictFind (addBatch st b) k = dictFind st k := by
  unfold addBatch
  unfold writesKey at h
  cases hl : lookupAssoc STATE_NAME_TO_FIPS b.state with
  | none => rfl
  | some sfips =>
      rw [hl] at h
      simp only [Bool.and_eq_false_iff] at h
      apply foldl_insert_find_ne
      intro c hc hcontra
      rcases h with h | h
      · rw [decide_eq_false_iff_not] at h
        exact h (by rw [← hcontra])
      · rw [List.any_eq_false] at h
        have := h c hc
        simp only [decide_eq_true_eq] at this
        exact this (by rw [← hcontra])

/-- Helper: a batch that writes the looked-up key makes that lookup return
the batch status. -/
lemma addBatch_find_writes (b : Batch) (k : StatusKey)
    (h : writesKey b k = true) (st : StatusMap) :
    dictFind (addBatch st b) k = some b.stat := by
  unfold addBatch
  unfold writesKey at h
  cases hl : lookupAssoc STATE_NAME_TO_FIPS b.state with
  | none => rw [hl] at h; exact absurd h (by simp)
  | some sfips =>
      rw [hl] at h
      simp only [Bool.and_eq_true, decide_eq_true_eq] at h
      exact foldl_insert_find_hit sfips b.stat k b.counties st h.1 h.2

/-- Helper: a run of batches none of which writes the looked-up key leaves
that lookup unchanged. -/
lemma foldl_addBatch_not_writes (k : StatusKey) :
    ∀ (rs : List Batch) (st : StatusMap), (∀ b' ∈ rs, writesKey b' k = false) →
      dictFind (rs.foldl addBatch st) k = dictFind st k := by
  intro rs
  induction rs with
  | nil => intro st _; rfl
  | cons b rs ih =>
      intro st h
      rw [List.foldl_cons, ih _ (fun b' hb' => h b' (List.mem_cons_of_mem _ hb')),
        addBatch_find_not_writes b k (h b (List.mem_cons_self _ _)) st]

/-- Helper: one verifier loop iteration conjoins the accumulator with the
pass bit of the current check. -/
lemma verifyStep_eq_and (df : List Row) (acc : Bool) (c : Check) :
    verifyStep df acc c = (acc && checkPass df c) := by
  unfold verifyStep checkPass
  cases findRow df c.county c.state with
  | none => simp
  | some r => by_cases h : r.status = c.expected <;> simp [h]

/-- Helper: the verifier fold computes the conjunction of all pass bits. -/
lemma foldl_verifyStep (df : List Row) (cs : List Check) :
    ∀ acc : Bool, cs.foldl (verifyStep df) acc = (acc && cs.all (checkPass df)) := by
  induction cs with
  | nil => intro acc; simp
  | cons c cs ih =>
      intro acc
      rw [List.foldl_cons, verifyStep_eq_and, ih]
      simp [Bool.and_assoc]

/-- Helper: a check reports PASS exactly when it finds a matching row whose
status equals the expected status. -/
lemma checkOutcome_pass_iff (df : List Row) (c : Check) :
    checkOutcome df c = "PASS" ↔ checkPass df c = true := by
  unfold checkOutcome checkPass
  cases findRow df c.county c.state with
  | none => simp
  | some r => by_cases h : r.status = c.expected <;> simp [h]

/-- Claim C1 counterexample: the claim says every region whose state
identifier belongs to a US territory is excluded from the joined output,
but a Puerto Rico region (FIPS "72", a territory outside the 50 states plus
DC) passes the filter of `build_county_dataset`, because
`STATE_FIPS_TO_NAME` contains the entry ("72", "Puerto Rico"). -/
theorem c1_territory_counterexample :
    prRegion ∈ filterRegions [prRegion] ∧ prRegion.STATEFP ∈ territory_fips
      ∧ prRegion.STATEFP ∉ spec_fifty_states_dc := by decide

/-- Claim C1 (amended): the joiner filters the geography collection to
regions whose state FIPS code is among the 50 states plus DC or is Puerto
Rico ("72"); every region of a territory other than Puerto Rico is
excluded. -/
theorem c1_filter_amended (gdf : List Region) (r : Region) :
    (r ∈ filterRegions gdf ↔
      r ∈ gdf ∧ (r.STATEFP ∈ spec_fifty_states_dc ∨ r.STATEFP = "72"))
    ∧ (r.STATEFP ∈ territory_fips → r.STATEFP ≠ "72" → r ∉ filterRegions gdf) := by
  have hv : validStates = spec_fifty_states_dc ++ ["72"] := by decide
  constructor
  · rw [filterRegions, List.mem_filter, hv]
    simp [List.mem_append]
  · intro ht h72 hmem
    rw [filterRegions, List.mem_filter, hv] at hmem
    have : r.STATEFP ∈ spec_fifty_states_dc ∨ r.STATEFP = "72" := by
      have := hmem.2
      simp only [decide_eq_true_eq, List.mem_append, List.mem_singleton] at this
      exact this
    rcases this with hin | heq
    · have hterr : r.STATEFP = "60" ∨ r.STATEFP = "66" ∨ r.STATEFP = "69"
          ∨ r.STATEFP = "72" ∨ r.STATEFP = "78" := by
        simpa [territory_fips] using ht
      rcases hterr with h | h | h | h | h <;> rw [h] at hin <;> revert hin <;> decide
    · exact h72 heq

/-- Claim C1 witness: a Guam region (territory FIPS "66") is excluded by the
filter. -/
theorem c1_amended_witness : guamRegion ∉ filterRegions [guamRegion, prRegion] :=
  (c1_filter_amended [guamRegion, prRegion] guamRegion).2 (by decide) (by decide)

/-- Claim C2: for every (state identifier, county name) pair whose
(state identifier, lowercased county name) key is absent from the status
table built by `_build_status_map`, the join resolves the status Wet. -/
theorem c2_default_wet (s n : String)
    (h : dictFind COUNTY_STATUS_MAP (s, lowerStr n) = none) :
    get_status s n = STATUS_WET := by
  unfold get_status dictGet
  rw [h]
  rfl

/-- Claim C2 witness: Los Angeles County, California ("06") is not listed,
so it resolves to Wet. -/
theorem c2_default_wet_witness :
    dictFind COUNTY_STATUS_MAP ("06", lowerStr "Los Angeles") = none
      ∧ get_status "06" "Los Angeles" = STATUS_WET :=
  ⟨by decide, c2_default_wet "06" "Los Angeles" (by decide)⟩

set_option maxRecDepth 4000 in
/-- Claim C3: the join is total — every region with any state identifier and
county name receives a status, and that status is one of Dry, Moist, Wet —
and the status is determined solely by the (state identifier, lowercased
county name) key and the status table: any two lookups with equal keys
resolve equal statuses. -/
theorem c3_status_invariant (s n : String) :
    (get_status s n = STATUS_DRY ∨ get_status s n = STATUS_MOIST
      ∨ get_status s n = STATUS_WET)
    ∧ (∀ s' n', s = s' → lowerStr n = lowerStr n' →
        get_status s n = get_status s' n') := by
  constructor
  · have hall : ∀ p ∈ COUNTY_STATUS_MAP, p.2 = STATUS_DRY ∨ p.2 = STATUS_MOIST := by
      decide
    unfold get_status dictGet dictFind
    cases hf2 : COUNTY_STATUS_MAP.find?
        (fun p => decide (p.1 = (s, lowerStr n))) with
    | none => right; right; rfl
    | some p =>
        have hmem := List.mem_of_find?_eq_some hf2
        simp only [Option.map_some', Option.getD_some]
        rcases hall p hmem with hd | hm
        · left; exact hd
        · right; left; exact hm
  · intro s' n' hs hn
    unfold get_status
    rw [hs, hn]

/-- Claim C3 witness: the enumeration and determinism instantiated at
Benton County, Mississippi, with a differently-cased spelling. -/
theorem c3_witness : get_status "28" "BENTON" = get_status "28" "Benton" :=
  (c3_status_invariant "28" "BENTON").2 "28" "Benton" rfl (by decide)

/-- Claim C4: in the status table builder, the value of any key equals the
status of the last batch that wrote it — whether one batch or several wrote
it — since every batch after that one leaves the key alone. -/
theorem c4_last_write_wins (bs l r : List Batch) (b : Batch) (k : StatusKey)
    (d : String) (hsplit : bs = l ++ b :: r) (hb : writesKey b k = true)
    (hr : ∀ b' ∈ r, writesKey b' k = false) :
    dictGet (buildFrom bs) k d = b.stat := by
  subst hsplit
  unfold buildFrom dictGet
  rw [List.foldl_append, List.foldl_cons,
    foldl_addBatch_not_writes k r _ hr, addBatch_find_writes b k hb]
  rfl

/-- Claim C4 witness: two batches write the key ("48", "borden"); the
finished table holds the later status. -/
theorem c4_witness :
    dictGet (buildFrom [⟨"Texas", ["Borden"], STATUS_DRY⟩,
        ⟨"Texas", ["Borden"], STATUS_MOIST⟩]) ("48", "borden") STATUS_WET
      = STATUS_MOIST :=
  c4_last_write_wins _ [⟨"Texas", ["Borden"], STATUS_DRY⟩] []
    ⟨"Texas", ["Borden"], STATUS_MOIST⟩ ("48", "borden") STATUS_WET rfl
    (by decide) (by simp)

/-- Claim C5: calling `add` with a state name that is not a key of
`STATE_NAME_TO_FIPS` raises no error and leaves the status mapping
completely unchanged. -/
theorem c5_unknown_state_noop (st : StatusMap) (b : Batch)
    (h : b.state ∉ STATE_NAME_TO_FIPS.map Prod.fst) : addBatch st b = st := by
  have hnone : lookupAssoc STATE_NAME_TO_FIPS b.state = none := by
    unfold lookupAssoc
    rw [List.find?_eq_none.mpr]
    · rfl
    · intro p hp hcontra
      simp only [decide_eq_true_eq] at hcontra
      exact h (hcontra ▸ List.mem_map_of_mem Prod.fst hp)
  unfold addBatch
  rw [hnone]

/-- Claim C5 witness: a batch for the unknown state name Narnia leaves the
empty mapping empty. -/
theorem c5_witness :
    ("Narnia" ∉ STATE_NAME_TO_FIPS.map Prod.fst)
      ∧ addBatch [] ⟨"Narnia", ["Spare Oom"], STATUS_DRY⟩ = [] :=
  ⟨by decide, c5_unknown_state_noop [] ⟨"Narnia", ["Spare Oom"], STATUS_DRY⟩ (by decide)⟩

/-- Claim C6: joining the built status table over the six spot-check
counties yields exactly the statuses the spec lists: Hot Spring AR Wet,
Borden TX Dry, Benton MS Dry, Cullman AL Moist, Davidson TN Wet,
Moore TN Moist. -/
theorem c6_spot_checks :
    (build_county_dataset id gdfSpot).1 = [
      ⟨"05059", "Hot Spring", "Arkansas", STATUS_WET⟩,
      ⟨"48033", "Borden", "Texas", STATUS_DRY⟩,
      ⟨"28009", "Benton", "Mississippi", STATUS_DRY⟩,
      ⟨"01043", "Cullman", "Alabama", STATUS_MOIST⟩,
      ⟨"47037", "Davidson", "Tennessee", STATUS_WET⟩,
      ⟨"47117", "Moore", "Tennessee", STATUS_MOIST⟩] := by decide

/-- Claim C7: for every input geography collection, the flat table of
`build_county_dataset` has exactly one row per filtered region, the feature
collection has exactly one feature per table row, and feature ids align 1:1
with table fips identifiers. -/
theorem c7_join_alignment (simplifyFn : String → String) (gdf : List Region) :
    ((build_county_dataset simplifyFn gdf).1).length = (filterRegions gdf).length
    ∧ ((build_county_dataset simplifyFn gdf).2).length
        = ((build_county_dataset simplifyFn gdf).1).length
    ∧ ((build_county_dataset simplifyFn gdf).2).map Feature.id
        = ((build_county_dataset simplifyFn gdf).1).map Row.fips := by
  refine ⟨?_, ?_, ?_⟩ <;> simp [build_county_dataset, List.map_map, Function.comp]

/-- Claim C8: the dataset-building pipeline is deterministic: on equal input
collections (and the same geometry simplification), two runs of
`build_county_dataset` produce identical tables and identical feature
collections. -/
theorem c8_deterministic (simplifyFn : String → String) (g1 g2 : List Region)
    (h : g1 = g2) :
    (build_county_dataset simplifyFn g1).1 = (build_county_dataset simplifyFn g2).1
    ∧ (build_county_dataset simplifyFn g1).2 = (build_county_dataset simplifyFn g2).2 := by
  subst h
  exact ⟨rfl, rfl⟩

/-- Claim C8 witness: two runs on the six-region spot-check input agree. -/
theorem c8_witness :
    (build_county_dataset id gdfSpot).1 = (build_county_dataset id gdfSpot).1
    ∧ (build_county_dataset id gdfSpot).2 = (build_county_dataset id gdfSpot).2 :=
  c8_deterministic id gdfSpot gdfSpot rfl

/-- Claim C9: `verify_data` returns true exactly when every entry of its
fixed check list reports PASS, where a check reports MISS when no row
matches its county and state exactly, and otherwise PASS or FAIL by
equality of the matched row status with the expected status. -/
theorem c9_verifier (df : List Row) :
    verify_data df = true ↔ ∀ c ∈ checks, checkOutcome df c = "PASS" := by
  unfold verify_data
  rw [foldl_verifyStep]
  simp only [Bool.true_and, List.all_eq_true]
  exact forall_congr' fun c => forall_congr' fun _ => (checkOutcome_pass_iff df c).symm

/-- Claim C9 witness: on a table matching all eleven checks the verifier
returns true, and in particular the Borden, Texas check reports PASS. -/
theorem c9_witness : checkOutcome df11 bordenCheck = "PASS" :=
  (c9_verifier df11).mp (by decide) bordenCheck (by decide)

/-- Claim C10: status resolution is case-insensitive in the county name:
two names with the same lowercasing resolve to the same status for any
state code. -/
theorem c10_case_insensitive (s n1 n2 : String) (h : lowerStr n1 = lowerStr n2) :
    get_status s n1 = get_status s n2 := by
  unfold get_status
  rw [h]

/-- Claim C10 witness: BORDEN and Borden resolve to the same Texas status. -/
theorem c10_witness :
    lowerStr "BORDEN" = lowerStr "Borden"
      ∧ get_status "48" "BORDEN" = get_status "48" "Borden" :=
  ⟨by decide, c10_case_insensitive "48" "BORDEN" "Borden" (by decide)⟩

end DryCounties
